import Mathlib

/-!
Verification of the Surf-Ceylon ML-engine forecast pipeline.

Shallow embedding of the core pipeline:
* `utils/data_processor.py` — `get_average_from_sources` (multi-provider value reconciliation)
* `forecast_7day_service.py` — `_get_value`, the prediction cascade, `aggregate_to_daily`
* `utils/feature_engineering.py` — `calculate_engineered_features`
* `utils/date_utils.py` — `aggregate_hourly_to_daily`
* `utils/api_client.py` + `config/api_keys.py` — credential rotation loop
* `collect_historical_data.py` — historical backfill loop

Numbers are modelled as exact rationals; transcendental helpers (`np.sin`,
`np.cos`, `np.exp`) and random draws are passed in as abstract function
parameters, so every control-flow and algebraic fact below holds for any
realisation of them.  Fallible Python code is modelled with `Except`/`Option`:
a `.error` value marks a raised exception or a process exit.
-/

namespace SurfCeylon

/-! ## Python value model for StormGlass source dictionaries

A parameter reading maps a provider-source name to a raw value which can be
`null` (Python `None`), a float NaN, a number, or (defensively) a string.
Dictionaries are modelled as ordered association lists (Python dicts preserve
insertion order). -/

inductive PyVal where
  | null
  | nan
  | num (q : ℚ)
  | str (s : String)
deriving DecidableEq, Repr

abbrev Reading := List (String × PyVal)

/-- A Python argument that may or may not be a dict
(`isinstance(source_dict, dict)` check). -/
inductive PyInput where
  | dict (r : Reading)
  | nonDict
deriving DecidableEq, Repr

/-- `source in source_dict` / `source_dict[source]` lookup. -/
def Reading.lookupSrc (r : Reading) (s : String) : Option PyVal :=
  (r.find? (fun p => p.1 == s)).map (fun p => p.2)

/-- Arithmetic mean of a list of rationals (`np.mean` on exact values). -/
def meanQ (l : List ℚ) : ℚ := l.sum / l.length

/-- First pass of `get_average_from_sources`: walk the priority list and
collect every present, non-null, non-NaN value.  `np.isnan(val)` raises
`TypeError` on a string *before* the `float(val)` try/except is reached,
hence the `.error` case. -/
def valuesPass (srcs : List String) (r : Reading) : Except Unit (List ℚ) :=
  match srcs with
  | [] => .ok []
  | s :: rest =>
    match r.lookupSrc s with
    | none => valuesPass rest r
    | some .null => valuesPass rest r
    | some .nan => valuesPass rest r
    | some (.num q) => (valuesPass rest r).map (fun vs => q :: vs)
    | some (.str _) => .error ()

/-- Second pass of `get_average_from_sources`: same collection over *all*
dict items in insertion order. -/
def valuesAll (r : Reading) : Except Unit (List ℚ) :=
  match r with
  | [] => .ok []
  | (_, v) :: rest =>
    match v with
    | .null => valuesAll rest
    | .nan => valuesAll rest
    | .num q => (valuesAll rest).map (fun vs => q :: vs)
    | .str _ => .error ()

/-- The fixed provider-priority list of `get_average_from_sources`. -/
def source_priority : List String := ["sg", "noaa", "icon", "meteo", "fcoo", "meto"]

/-- `utils/data_processor.py::get_average_from_sources`.  Returns the mean of
all priority-listed valid values; if none, the mean of all valid values in the
dict; if still none, the caller default.  `.error` models an uncaught
`TypeError` raised by `np.isnan` on a non-numeric value. -/
def get_average_from_sources (input : PyInput) (dflt : ℚ) : Except Unit ℚ :=
  match input with
  | .nonDict => .ok dflt
  | .dict r =>
    match valuesPass source_priority r with
    | .error e => .error e
    | .ok vs =>
      if vs.isEmpty then
        match valuesAll r with
        | .error e => .error e
        | .ok all => if all.isEmpty then .ok dflt else .ok (meanQ all)
      else .ok (meanQ vs)

/-- The fixed provider-priority list of `forecast_7day_service.py::_get_value`. -/
def get_value_priority : List String := ["sg", "noaa", "icon", "meteo"]

/-- Source-walking loop of `_get_value`: return the *first* present, non-null,
non-NaN value; `np.isnan` on a string raises. -/
def getValueLoop (srcs : List String) (r : Reading) (dflt : ℚ) : Except Unit ℚ :=
  match srcs with
  | [] => .ok dflt
  | s :: rest =>
    match r.lookupSrc s with
    | none => getValueLoop rest r dflt
    | some .null => getValueLoop rest r dflt
    | some .nan => getValueLoop rest r dflt
    | some (.num q) => .ok q
    | some (.str _) => .error ()

/-- `forecast_7day_service.py::_get_value`. -/
def _get_value (input : PyInput) (dflt : ℚ) : Except Unit ℚ :=
  match input with
  | .nonDict => .ok dflt
  | .dict r => getValueLoop get_value_priority r dflt

/-! ### Spec-side reconciliation definitions (for refinement comparison)

These two definitions follow the *spec's words*, to be compared with the
embeddings above: "returns the first present, non-null, non-NaN numeric
value" and the averaging fallback. -/

/-- Spec words: the first present, non-null, non-NaN numeric value along the
priority order. -/
def specFirstValid (prio : List String) (r : Reading) : Option ℚ :=
  prio.findSome? (fun s =>
    match r.lookupSrc s with
    | some (.num q) => some q
    | _ => none)

/-- All valid (numeric) values among the priority-listed sources, in priority
order. -/
def specPriorityVals (prio : List String) (r : Reading) : List ℚ :=
  prio.filterMap (fun s =>
    match r.lookupSrc s with
    | some (.num q) => some q
    | _ => none)

/-- All valid (numeric) values present in the reading, in insertion order. -/
def specAllVals (r : Reading) : List ℚ :=
  r.filterMap (fun p =>
    match p.2 with
    | .num q => some q
    | _ => none)

/-- Spec-side description of what `get_average_from_sources` computes on
string-free readings: mean of priority-listed valid values, else mean of all
valid values, else the default. -/
def specAverage (r : Reading) (dflt : ℚ) : ℚ :=
  let vs := specPriorityVals source_priority r
  if vs.isEmpty then
    let all := specAllVals r
    if all.isEmpty then dflt else meanQ all
  else meanQ vs

/-- A reading none of whose values is a string (raw numeric-or-null data, as
the spec's data model describes). -/
def noStrB (r : Reading) : Bool :=
  r.all (fun p =>
    match p.2 with
    | .str _ => false
    | _ => true)

/-! ## Feature engineering (`utils/feature_engineering.py`)

A single-row pandas DataFrame is modelled as an ordered association list of
(column name, value); `df[c] = v` replaces the column in place when present
and appends it at the end otherwise, exactly as pandas does. -/

abbrev Frame := List (String × ℚ)

/-- Column read `df[c]` (a missing column would raise `KeyError`, hence
`Option`). -/
def Frame.getCol (f : Frame) (c : String) : Option ℚ :=
  (f.find? (fun p => p.1 == c)).map (fun p => p.2)

/-- Column write `df[c] = v`. -/
def Frame.setCol (f : Frame) (c : String) (v : ℚ) : Frame :=
  if f.any (fun p => p.1 == c) then
    f.map (fun p => if p.1 == c then (c, v) else p)
  else
    f ++ [(c, v)]

/-- `utils/feature_engineering.py::calculate_engineered_features`.
`cosd x` abstracts `np.cos(np.radians(x))` (any real cosine realisation).
The function first copies the input frame (`input_df.copy()`), then appends
the 5 engineered columns in the source's order. -/
def calculate_engineered_features (cosd : ℚ → ℚ) (input_df : Frame) : Option Frame := do
  let df := input_df
  let sh ← df.getCol "swellHeight"
  let sp ← df.getCol "swellPeriod"
  let df := df.setCol "swellEnergy" (sh ^ 2 * sp)
  let ws ← df.getCol "windSpeed"
  let wd ← df.getCol "windDirection"
  let df := df.setCol "offshoreWind" (ws * cosd (wd - 270))
  let ssh ← df.getCol "secondarySwellHeight"
  let df := df.setCol "totalSwellHeight" (sh + ssh)
  let df := df.setCol "windSwellInteraction" (ws * sh)
  let ssp ← df.getCol "secondarySwellPeriod"
  let df := df.setCol "periodRatio" (sp / (ssp + 1))
  return df

/-- The 10 named base features, in the fixed contractual order. -/
structure BaseFeatures where
  swellHeight : ℚ
  swellPeriod : ℚ
  swellDirection : ℚ
  windSpeed : ℚ
  windDirection : ℚ
  seaLevel : ℚ
  gust : ℚ
  secondarySwellHeight : ℚ
  secondarySwellPeriod : ℚ
  secondarySwellDirection : ℚ
deriving DecidableEq, Repr

/-- A valid 10-field base-feature input row as a DataFrame. -/
def baseFrame (b : BaseFeatures) : Frame :=
  [("swellHeight", b.swellHeight), ("swellPeriod", b.swellPeriod),
   ("swellDirection", b.swellDirection), ("windSpeed", b.windSpeed),
   ("windDirection", b.windDirection), ("seaLevel", b.seaLevel),
   ("gust", b.gust), ("secondarySwellHeight", b.secondarySwellHeight),
   ("secondarySwellPeriod", b.secondarySwellPeriod),
   ("secondarySwellDirection", b.secondarySwellDirection)]

/-- The 5 engineered columns, as the source appends them. -/
def engineeredCols (cosd : ℚ → ℚ) (b : BaseFeatures) : Frame :=
  [("swellEnergy", b.swellHeight ^ 2 * b.swellPeriod),
   ("offshoreWind", b.windSpeed * cosd (b.windDirection - 270)),
   ("totalSwellHeight", b.swellHeight + b.secondarySwellHeight),
   ("windSwellInteraction", b.windSpeed * b.swellHeight),
   ("periodRatio", b.swellPeriod / (b.secondarySwellPeriod + 1))]

/-! ## Hourly rows, Python rounding, daily aggregation -/

/-- One hour of the 6-channel forecast series
(`FEATURE_COLS` of `forecast_7day_service.py` / the row keys of
`utils/date_utils.py`). -/
structure Row where
  waveHeight : ℚ
  wavePeriod : ℚ
  swellHeight : ℚ
  swellPeriod : ℚ
  windSpeed : ℚ
  windDirection : ℚ
deriving DecidableEq, Repr

/-- Python's builtin `round` to an integer: round-half-to-even. -/
def pyRound (x : ℚ) : ℤ :=
  let f := Int.floor x
  let r := x - f
  if r < 1 / 2 then f
  else if 1 / 2 < r then f + 1
  else if Even f then f else f + 1

/-- Python's `round(x, nd)` for `nd ≥ 0` decimal places. -/
def roundTo (nd : ℕ) (x : ℚ) : ℚ := (pyRound (x * 10 ^ nd) : ℚ) / 10 ^ nd

/-- Channel-wise arithmetic mean of a block of rows (`axis=0`). -/
def meanRow (l : List Row) : Row :=
  { waveHeight := meanQ (l.map (fun r => r.waveHeight))
  , wavePeriod := meanQ (l.map (fun r => r.wavePeriod))
  , swellHeight := meanQ (l.map (fun r => r.swellHeight))
  , swellPeriod := meanQ (l.map (fun r => r.swellPeriod))
  , windSpeed := meanQ (l.map (fun r => r.windSpeed))
  , windDirection := meanQ (l.map (fun r => r.windDirection)) }

/-- Fallback daily row used by `aggregate_hourly_to_daily` when a 24-hour
block is empty. -/
def fallbackDaily : Row :=
  { waveHeight := 1.0, wavePeriod := 10.0, swellHeight := 0.8
  , swellPeriod := 12.0, windSpeed := 15.0, windDirection := 180.0 }

/-- Per-day averaging step of `utils/date_utils.py::aggregate_hourly_to_daily`:
every channel is rounded to 1 decimal place. -/
def dailyAvgDU (day_hours : List Row) : Row :=
  { waveHeight := roundTo 1 (meanQ (day_hours.map (fun r => r.waveHeight)))
  , wavePeriod := roundTo 1 (meanQ (day_hours.map (fun r => r.wavePeriod)))
  , swellHeight := roundTo 1 (meanQ (day_hours.map (fun r => r.swellHeight)))
  , swellPeriod := roundTo 1 (meanQ (day_hours.map (fun r => r.swellPeriod)))
  , windSpeed := roundTo 1 (meanQ (day_hours.map (fun r => r.windSpeed)))
  , windDirection := roundTo 1 (meanQ (day_hours.map (fun r => r.windDirection))) }

/-- `utils/date_utils.py::aggregate_hourly_to_daily`: for each of 7 days,
the slice `hourly_data[day*hours_per_day : (day+1)*hours_per_day]` is
averaged per channel (or replaced by the fallback row when empty). -/
def aggregate_hourly_to_daily (hourly_data : List Row) (hours_per_day : ℕ) : List Row :=
  (List.range 7).map (fun day =>
    if ((hourly_data.drop (day * hours_per_day)).take hours_per_day).isEmpty then
      fallbackDaily
    else dailyAvgDU ((hourly_data.drop (day * hours_per_day)).take hours_per_day))

/-- One element of the `hourly` output list of
`forecast_7day_service.py::aggregate_to_daily`. -/
structure HourlyOut where
  hour : ℕ
  day : ℕ
  hourOfDay : ℕ
  waveHeight : ℚ
  wavePeriod : ℚ
  swellHeight : ℚ
  swellPeriod : ℚ
  windSpeed : ℚ
  windDirection : ℚ
deriving DecidableEq, Repr

/-- Default row for the (unreachable on pipeline inputs) out-of-bounds index
case of `hourly_forecast[hour_idx]`; all callers pass exactly 168 rows. -/
def zeroRow : Row := ⟨0, 0, 0, 0, 0, 0⟩

/-- Per-day averaging step of `forecast_7day_service.py::aggregate_to_daily`:
heights to 2 decimals, periods and wind speed to 1, wind direction to 0. -/
def dailyAvgFS (day_data : List Row) : Row :=
  { waveHeight := roundTo 2 (meanQ (day_data.map (fun r => r.waveHeight)))
  , wavePeriod := roundTo 1 (meanQ (day_data.map (fun r => r.wavePeriod)))
  , swellHeight := roundTo 2 (meanQ (day_data.map (fun r => r.swellHeight)))
  , swellPeriod := roundTo 1 (meanQ (day_data.map (fun r => r.swellPeriod)))
  , windSpeed := roundTo 1 (meanQ (day_data.map (fun r => r.windSpeed)))
  , windDirection := roundTo 0 (meanQ (day_data.map (fun r => r.windDirection))) }

/-- `forecast_7day_service.py::aggregate_to_daily`: 7 daily aggregates (the
`daily_forecasts` dict, ordered by day) and 168 stamped hourly rows. -/
def aggregate_to_daily (hourly_forecast : List Row) : List Row × List HourlyOut :=
  let hourly_forecasts := (List.range 168).map (fun h =>
    let r := hourly_forecast.getD h zeroRow
    ({ hour := h, day := h / 24, hourOfDay := h % 24
     , waveHeight := roundTo 2 r.waveHeight
     , wavePeriod := roundTo 1 r.wavePeriod
     , swellHeight := roundTo 2 r.swellHeight
     , swellPeriod := roundTo 1 r.swellPeriod
     , windSpeed := roundTo 1 r.windSpeed
     , windDirection := roundTo 0 r.windDirection } : HourlyOut))
  let daily := (List.range 7).map (fun day =>
    dailyAvgFS ((hourly_forecast.drop (day * 24)).take 24))
  (daily, hourly_forecasts)

/-! ## Prediction cascade (`forecast_7day_service.py`)

Transcendental and random ingredients are abstract parameters:
* `sin2pi x` stands for `np.sin(2 * np.pi * x)`;
* `rnd h k` stands for the k-th `random.uniform(...)` draw at hour `h` in
  `generate_realistic_mock_data`;
* `expd h` stands for `np.exp(-h / 72)`;
* `nrm h c` stands for channel `c` of `np.random.normal(0, 0.05, 6)` at
  future hour `h`. -/

/-- Region-conditioned base levels of `generate_realistic_mock_data`. -/
structure RegionBase where
  base_wave : ℚ
  base_period : ℚ
  base_swell : ℚ
  base_swell_period : ℚ
  base_wind : ℚ
  base_wind_dir : ℚ

/-- Region dispatch: east coast if `lng > 81`, south coast if
`lat < 6.5 and lng < 81`, default/west coast otherwise. -/
def regionFor (lat lng : ℚ) : RegionBase :=
  if 81 < lng then
    ⟨1.3, 11.0, 1.1, 12.5, 16.0, 270.0⟩
  else if lat < 6.5 ∧ lng < 81 then
    ⟨1.1, 10.0, 0.9, 12.0, 14.0, 200.0⟩
  else
    ⟨0.9, 9.5, 0.7, 11.0, 12.0, 180.0⟩

/-- `forecast_7day_service.py::generate_realistic_mock_data`. -/
def generate_realistic_mock_data (lat lng : ℚ) (hours : ℕ)
    (sin2pi : ℚ → ℚ) (rnd : ℕ → ℕ → ℚ) : List Row :=
  let b := regionFor lat lng
  (List.range hours).map (fun (hour : ℕ) =>
    let h : ℚ := (hour : ℚ)
    let daily_cycle := 0.1 * sin2pi (h / 24)
    let swell_cycle := 0.3 * sin2pi (h / 72)
    let noise := rnd hour 0
    let wind_cycle := 3.0 * (0.5 + 0.5 * sin2pi ((h - 6) / 24))
    { waveHeight := max 0.3 (b.base_wave + swell_cycle + daily_cycle + noise)
    , wavePeriod := max 6.0 (b.base_period + swell_cycle * 2 + rnd hour 1)
    , swellHeight := max 0.2 (b.base_swell + swell_cycle + noise * 0.5)
    , swellPeriod := max 8.0 (b.base_swell_period + swell_cycle * 1.5 + rnd hour 2)
    , windSpeed := max 5.0 (b.base_wind + wind_cycle + rnd hour 3)
    , windDirection := b.base_wind_dir + rnd hour 4 })

/-- Python float `%` (sign of the divisor): `x - y * floor(x / y)`. -/
def fmodQ (x y : ℚ) : ℚ := x - y * (Int.floor (x / y) : ℚ)

/-- `forecast_7day_service.py::generate_mock_forecast_from_recent`
(trend extrapolation). -/
def generate_mock_forecast_from_recent (recent_data : List Row)
    (sin2pi : ℚ → ℚ) (expd : ℕ → ℚ) (nrm : ℕ → Fin 6 → ℚ) : List Row :=
  let n := recent_data.length
  let last_24h := recent_data.drop (n - 24)
  let prior_24h := (recent_data.drop (n - 48)).take 24
  let avg_recent := meanRow last_24h
  let avg_older := meanRow prior_24h
  let trend : Fin 6 → ℚ := fun c =>
    match c with
    | 0 => avg_recent.waveHeight - avg_older.waveHeight
    | 1 => avg_recent.wavePeriod - avg_older.wavePeriod
    | 2 => avg_recent.swellHeight - avg_older.swellHeight
    | 3 => avg_recent.swellPeriod - avg_older.swellPeriod
    | 4 => avg_recent.windSpeed - avg_older.windSpeed
    | 5 => avg_recent.windDirection - avg_older.windDirection
  let avg : Fin 6 → ℚ := fun c =>
    match c with
    | 0 => avg_recent.waveHeight
    | 1 => avg_recent.wavePeriod
    | 2 => avg_recent.swellHeight
    | 3 => avg_recent.swellPeriod
    | 4 => avg_recent.windSpeed
    | 5 => avg_recent.windDirection
  (List.range 168).map (fun hour =>
    let damping := expd hour
    let daily_cycle := 0.1 * sin2pi ((hour : ℚ) / 24)
    let predicted : Fin 6 → ℚ := fun c =>
      avg c + trend c * damping + daily_cycle * avg c * 0.1 + nrm hour c * avg c
    { waveHeight := max 0.3 (min 5.0 (predicted 0))
    , wavePeriod := max 6.0 (min 20.0 (predicted 1))
    , swellHeight := max 0.2 (min 4.0 (predicted 2))
    , swellPeriod := max 8.0 (min 25.0 (predicted 3))
    , windSpeed := max 5.0 (min 35.0 (predicted 4))
    , windDirection := fmodQ (predicted 5) 360 })

/-- `forecast_7day_service.py::predict_with_lstm`.  The configured model is an
opaque capability `Option (List Row → Option (List Row))`: `none` models
`MODEL_AVAILABLE = False`; the inner `Option` models the scaler/model pipeline
raising (every exception is caught and turns into `None`).  A successful model
output must reshape to `(168, 6)`, i.e. carry exactly 168 rows, otherwise the
reshape raises and the except-branch also yields `None`. -/
def predict_with_lstm (model : Option (List Row → Option (List Row)))
    (recent_data : List Row) : Option (List Row) :=
  match model with
  | none => none
  | some f =>
    let r :=
      if 168 < recent_data.length then
        recent_data.drop (recent_data.length - 168)
      else if recent_data.length < 168 then
        recent_data ++ List.replicate (168 - recent_data.length) (recent_data.getLastD zeroRow)
      else recent_data
    match f r with
    | none => none
    | some y => if y.length = 168 then some y else none

/-- The forecast bundle returned by `predict_7day_forecast`. -/
structure Bundle where
  daily : List Row
  hourly : List HourlyOut
  dataSource : String
  forecastMethod : String

/-- `forecast_7day_service.py::predict_7day_forecast`: the full cascade.
`fetched` is the result of `fetch_recent_data_from_api` (`none` when all API
keys failed). -/
def predict_7day_forecast (lat lng : ℚ) (fetched : Option (List Row))
    (model : Option (List Row → Option (List Row)))
    (sin2pi : ℚ → ℚ) (rnd : ℕ → ℕ → ℚ) (expd : ℕ → ℚ) (nrm : ℕ → Fin 6 → ℚ) :
    Bundle :=
  let step2 :=
    match fetched with
    | some d =>
      if d.length < 168 then (generate_realistic_mock_data lat lng 168 sin2pi rnd, "Mock")
      else (d, "API")
    | none => (generate_realistic_mock_data lat lng 168 sin2pi rnd, "Mock")
  let recent_data := step2.1
  let data_source := step2.2
  let step4 :=
    match predict_with_lstm model recent_data with
    | some y => (y, "LSTM")
    | none => (generate_mock_forecast_from_recent recent_data sin2pi expd nrm, "Trend")
  let agg := aggregate_to_daily step4.1
  { daily := agg.1, hourly := agg.2, dataSource := data_source, forecastMethod := step4.2 }

/-! ## Credential rotation (`config/api_keys.py`, `utils/api_client.py`) -/

/-- An HTTP exchange outcome as seen by
`fetch_weather_data_with_rotation`; `α` is the payload type of the response's
`hours` list. -/
inductive ApiResp (α : Type) where
  | status (code : ℕ) (hours : List α)
  | timeout
  | exc (msg : String)

/-- `config/api_keys.py::rotate_to_next_key`:
`current_api_key_index = (current_api_key_index + 1) % len(API_KEYS)`. -/
def rotate_to_next_key (N cursor : ℕ) : ℕ := (cursor + 1) % N

/-- Result of one call to the rotating fetch: the successful payload (if any),
the global key cursor after the call, and the key index used at each attempt
in order. -/
structure RotRun (α : Type) where
  result : Option (List α)
  cursor : ℕ
  trace : List ℕ
deriving DecidableEq, Repr

/-- The `while keys_tried < total_keys` loop of
`utils/api_client.py::fetch_weather_data_with_rotation`; `fuel` is the number
of attempts still allowed, `tried` the attempt counter (indexing the oracle),
`cursor` the global `current_api_key_index`.  Every branch — success, empty
payload, 402/429, any other status, timeout, any other exception — rotates the
cursor by exactly one; only a 200 response with a non-empty `hours` payload
returns. -/
def fetchRotAux {α : Type} (oracle : ℕ → ApiResp α) (N : ℕ) :
    ℕ → ℕ → ℕ → RotRun α
  | 0, _, cursor => ⟨none, cursor, []⟩
  | fuel + 1, tried, cursor =>
    let next : RotRun α :=
      let r := fetchRotAux oracle N fuel (tried + 1) (rotate_to_next_key N cursor)
      ⟨r.result, r.cursor, cursor :: r.trace⟩
    match oracle tried with
    | .status code hs =>
      if code = 200 ∧ hs.isEmpty = false then
        ⟨some hs, rotate_to_next_key N cursor, [cursor]⟩
      else next
    | .timeout => next
    | .exc _ => next

/-- `utils/api_client.py::fetch_weather_data_with_rotation`, with the key pool
size `N`, the starting cursor and the per-attempt response oracle made
explicit. -/
def fetch_weather_data_with_rotation {α : Type} (N start : ℕ)
    (oracle : ℕ → ApiResp α) : RotRun α :=
  fetchRotAux oracle N N 0 start

/-! ## Historical backfill (`collect_historical_data.py`) -/

/-- An HTTP exchange outcome as seen by `fetch_data_for_spot`.  Row times are
modelled as integer hour indices. -/
inductive CResp where
  | ok (hours : List ℤ)
  | http (code : ℕ)
  | connErr

/-- Result of the inner retry loop (`while retries < max_retries`). -/
inductive InnerOut where
  | success (rows : List ℤ)
  | noSuccess (lastStatus : Option ℕ)

/-- The inner retry loop of `fetch_data_for_spot`: at most 3 attempts of the
*same* request.  A 200 with data succeeds; a 200 without data breaks with
`lastStatus = 200`.  Every HTTP error status — 422 and 429 included — and
every connection error sleeps `2 ** retries` seconds (after incrementing
`retries`) and retries: the source's `if response and response.status_code
== 422` / `elif response and response.status_code == 429` guards are dead
code, because `requests.Response.__bool__` is `status_code < 400` and is
therefore `False` for every response that reaches the `HTTPError` handler —
so the `sys.exit(1)` for 422 and the immediate key-switch for 429 never
execute.  `lastStatus` mirrors the `response` variable: it records the
status of the last *completed* exchange and is left stale by a connection
error (where `requests.get` raises before assigning).  Returns the outcome,
the attempt counter after the loop and the accumulated sleep durations. -/
def retryInner (oracle : ℕ → CResp) :
    (fuel ctr retries : ℕ) → Option ℕ → List ℕ → InnerOut × ℕ × List ℕ
  | 0, ctr, _, lastStatus, sleeps => (.noSuccess lastStatus, ctr, sleeps)
  | fuel + 1, ctr, retries, lastStatus, sleeps =>
    match oracle ctr with
    | .ok hours =>
      if hours.isEmpty then (.noSuccess (some 200), ctr + 1, sleeps)
      else (.success hours, ctr + 1, sleeps)
    | .http c =>
      retryInner oracle fuel (ctr + 1) (retries + 1) (some c) (sleeps ++ [2 ^ (retries + 1)])
    | .connErr =>
      retryInner oracle fuel (ctr + 1) (retries + 1) lastStatus (sleeps ++ [2 ^ (retries + 1)])

/-- Mutable state of the outer `for request_index in ...` loop of
`fetch_data_for_spot`: the accumulated hours, the successful-request count,
the sliding `end_date` (in hours), the global HTTP attempt counter and the
sleep log. -/
structure CollectState where
  hours : List ℤ
  made : ℕ
  endDate : ℤ
  ctr : ℕ
  sleeps : List ℕ
deriving DecidableEq, Repr

/-- The outer loop of `fetch_data_for_spot` over the remaining request
indices.  `oracle a e` is the server's response to the `a`-th HTTP attempt of
the run, for the 10-day window ending at hour `e`.  On success the returned
rows are *prepended* to the accumulator and the window slides 10 days (240
hours) further into the past.  When the retry loop ends without success, the
post-loop check `if response is None or response.status_code != 429: break`
is the only routing that actually executes: the loop moves on to the next
request index (and hence key block) exactly when the last completed response
was a 429, and stops the spot's collection otherwise.  The result stays in
`Except ℕ` to record the source's (textual) process-exit channel — the
`sys.exit(1)` for 422 at line 189 — but that branch is dead code (see
`retryInner`), so no `.error` is ever produced: the collector always returns
normally with the data gathered so far. -/
def collectAux (numKeys : ℕ) (oracle : ℕ → ℤ → CResp) :
    List ℕ → CollectState → Except ℕ CollectState
  | [], st => .ok st
  | idx :: rest, st =>
    let key_index_in_subset := idx / 10
    if numKeys ≤ key_index_in_subset then .ok st
    else
      match retryInner (fun a => oracle a st.endDate) 3 st.ctr 0 none st.sleeps with
      | (.success rows, ctr2, sl2) =>
        collectAux numKeys oracle rest
          { hours := rows ++ st.hours, made := st.made + 1
          , endDate := st.endDate - 240, ctr := ctr2, sleeps := sl2 }
      | (.noSuccess ls, ctr2, sl2) =>
        if ls = some 429 then
          collectAux numKeys oracle rest { st with ctr := ctr2, sleeps := sl2 }
        else .ok { st with ctr := ctr2, sleeps := sl2 }

/-- `collect_historical_data.py::fetch_data_for_spot` for a spot with
`numKeys` allocated keys, a 1-indexed starting request number and the initial
`end_date` (hour index `e0`).  The request budget is `numKeys * 10`
(sub-budget of 10 requests per credential). -/
def fetch_data_for_spot (numKeys : ℕ) (oracle : ℕ → ℤ → CResp)
    (startReqNum : ℕ) (e0 : ℤ) : Except ℕ CollectState :=
  collectAux numKeys oracle ((List.range (numKeys * 10)).drop (startReqNum - 1))
    ⟨[], 0, e0, 0, []⟩

/-- The all-success backfill oracle of C9: every request for the window ending
at hour `e` answers 200 with the 240 hourly rows of that 10-day window, in
ascending time order. -/
def allSuccessOracle : ℕ → ℤ → CResp :=
  fun _ e => .ok ((List.range 240).map (fun (i : ℕ) => e - 240 + (i : ℤ)))

/-- Concatenation of `k` consecutive 10-day windows walking back from `e`,
oldest first — the expected accumulator shape. -/
def windowCat (e : ℤ) (k : ℕ) : List ℤ :=
  (List.range (240 * k)).map (fun (i : ℕ) => e - 240 * k + (i : ℤ))

/-- Channel-wise rounding at the per-channel precision of
`utils/date_utils.py::aggregate_hourly_to_daily` (1 decimal everywhere). -/
def roundRowDU (r : Row) : Row :=
  { waveHeight := roundTo 1 r.waveHeight, wavePeriod := roundTo 1 r.wavePeriod
  , swellHeight := roundTo 1 r.swellHeight, swellPeriod := roundTo 1 r.swellPeriod
  , windSpeed := roundTo 1 r.windSpeed, windDirection := roundTo 1 r.windDirection }

/-- Channel-wise rounding at the per-channel precision of
`forecast_7day_service.py::aggregate_to_daily` (heights 2, periods and wind
speed 1, direction 0 decimals). -/
def roundRowFS (r : Row) : Row :=
  { waveHeight := roundTo 2 r.waveHeight, wavePeriod := roundTo 1 r.wavePeriod
  , swellHeight := roundTo 2 r.swellHeight, swellPeriod := roundTo 1 r.swellPeriod
  , windSpeed := roundTo 1 r.windSpeed, windDirection := roundTo 0 r.windDirection }

lemma valuesPass_eq_spec (prio : List String) (r : Reading) (h : noStrB r = true) :
    valuesPass prio r = .ok (specPriorityVals prio r) := by
  induction prio with
  | nil => rfl
  | cons s rest ih =>
    have hval : ∀ v, r.lookupSrc s = some v → ∀ t, v ≠ PyVal.str t := by
      intro v hv t
      simp only [Reading.lookupSrc, Option.map_eq_some'] at hv
      obtain ⟨p, hp, hpv⟩ := hv
      have hmem := List.mem_of_find?_eq_some hp
      have := (List.all_eq_true.mp h) p hmem
      cases hv2 : p.2 <;> simp [hv2] at this ⊢ <;> simp [hv2] at hpv <;> simp [← hpv]
    rcases hv : r.lookupSrc s with _ | v
    · simp [valuesPass, hv, specPriorityVals, ih]
    · cases v with
      | null => simp [valuesPass, hv, specPriorityVals, ih]
      | nan => simp [valuesPass, hv, specPriorityVals, ih]
      | num q => simp [valuesPass, hv, specPriorityVals, ih, List.filterMap_cons, Except.map]
      | str s' => exact absurd rfl (hval _ hv s')

lemma valuesAll_eq_spec (r : Reading) (h : noStrB r = true) :
    valuesAll r = .ok (specAllVals r) := by
  induction r with
  | nil => rfl
  | cons p rest ih =>
    have hp : (match p.2 with | PyVal.str _ => false | _ => true) = true ∧ noStrB rest = true := by
      constructor
      · exact (List.all_eq_true.mp h) p (List.mem_cons_self ..)
      · exact List.all_eq_true.mpr (fun q hq => (List.all_eq_true.mp h) q (List.mem_cons_of_mem _ hq))
    obtain ⟨hp1, hp2⟩ := hp
    cases hv : p.2 with
    | null => simp [valuesAll, hv, specAllVals, ih hp2, List.filterMap_cons]
    | nan => simp [valuesAll, hv, specAllVals, ih hp2, List.filterMap_cons]
    | num q => simp [valuesAll, hv, specAllVals, ih hp2, List.filterMap_cons, Except.map]
    | str s' => simp [hv] at hp1

lemma getValueLoop_eq_spec (prio : List String) (r : Reading) (d : ℚ)
    (h : noStrB r = true) :
    getValueLoop prio r d = .ok ((specFirstValid prio r).getD d) := by
  induction prio with
  | nil => rfl
  | cons s rest ih =>
    have hval : ∀ v, r.lookupSrc s = some v → ∀ t, v ≠ PyVal.str t := by
      intro v hv t
      simp only [Reading.lookupSrc, Option.map_eq_some'] at hv
      obtain ⟨p, hp, hpv⟩ := hv
      have hmem := List.mem_of_find?_eq_some hp
      have := (List.all_eq_true.mp h) p hmem
      cases hv2 : p.2 <;> simp [hv2] at this ⊢ <;> simp [hv2] at hpv <;> simp [← hpv]
    rcases hv : r.lookupSrc s with _ | v
    · simp [getValueLoop, hv, specFirstValid, List.findSome?_cons, ih]
    · cases v with
      | null => simp [getValueLoop, hv, specFirstValid, List.findSome?_cons, ih]
      | nan => simp [getValueLoop, hv, specFirstValid, List.findSome?_cons, ih]
      | num q => simp [getValueLoop, hv, specFirstValid, List.findSome?_cons]
      | str s' => exact absurd rfl (hval _ hv s')

lemma get_average_eq_spec (r : Reading) (d : ℚ) (h : noStrB r = true) :
    get_average_from_sources (.dict r) d = .ok (specAverage r d) := by
  simp only [get_average_from_sources, valuesPass_eq_spec _ _ h, valuesAll_eq_spec _ h]
  rcases hp : specPriorityVals source_priority r with _ | ⟨v, vs⟩
  · rcases ha : specAllVals r with _ | ⟨w, ws⟩ <;> simp [specAverage, hp, ha]
  · simp [specAverage, hp]

/-- C1 counterexample: `get_average_from_sources` (the reconciliation of
`utils/data_processor.py`) does *not* return the first priority-listed value:
on the claim's own input `{sg: 1.0, noaa: 2.0}` it returns the average `1.5`,
not `1.0`. -/
theorem c1_counterexample :
    get_average_from_sources
        (.dict [("sg", PyVal.num 1), ("noaa", PyVal.num 2)]) 0 = .ok (3 / 2) ∧
    (3 / 2 : ℚ) ≠ 1 := by
  constructor
  · simp [get_average_from_sources, valuesPass, Reading.lookupSrc, List.find?,
      source_priority, Except.map]
    norm_num [meanQ]
  · norm_num

/-- C1 (amended): the *service-level* reconciler `_get_value` of
`forecast_7day_service.py` walks the fixed priority list
`[sg, noaa, icon, meteo]` and returns the first present, non-null, non-NaN
numeric value (default when none), whereas `get_average_from_sources` of
`utils/data_processor.py` returns the *average* of all present, non-null,
non-NaN values among its priority list `[sg, noaa, icon, meteo, fcoo, meto]`
(falling back to the average over all entries, then the default).  Hence
`{sg: 1.0, noaa: 2.0}` reconciles to `1.0` under `_get_value` but to `1.5`
under `get_average_from_sources`; `{noaa: 2.0}` gives `2.0` and `{}` gives
the caller default under both.  Stated for string-free readings, on which
neither function raises. -/
theorem c1_amended :
    (∀ (r : Reading) (d : ℚ), noStrB r = true →
      _get_value (.dict r) d = .ok ((specFirstValid get_value_priority r).getD d) ∧
      get_average_from_sources (.dict r) d = .ok (specAverage r d)) ∧
    _get_value (.dict [("sg", PyVal.num 1), ("noaa", PyVal.num 2)]) 0 = .ok 1 ∧
    get_average_from_sources
        (.dict [("sg", PyVal.num 1), ("noaa", PyVal.num 2)]) 0 = .ok (3 / 2) ∧
    _get_value (.dict [("noaa", PyVal.num 2)]) 0 = .ok 2 ∧
    get_average_from_sources (.dict [("noaa", PyVal.num 2)]) 0 = .ok 2 ∧
    (∀ d : ℚ, _get_value (.dict []) d = .ok d ∧
      get_average_from_sources (.dict []) d = .ok d) := by
  refine ⟨fun r d h => ⟨getValueLoop_eq_spec _ _ _ h, get_average_eq_spec _ _ h⟩,
    rfl, ?_, rfl, ?_, fun d => ⟨rfl, rfl⟩⟩
  · simp [get_average_from_sources, valuesPass, Reading.lookupSrc, List.find?,
      source_priority, Except.map]
    norm_num [meanQ]
  · simp [get_average_from_sources, valuesPass, valuesAll, Reading.lookupSrc, List.find?,
      source_priority, Except.map]
    norm_num [meanQ]

/-- C1 witness: the amended statement applied to the concrete reading
`{icon: 4.0}` with default `7`; the spec-side first-valid value evaluates
to `4`. -/
theorem c1_amended_witness :
    (noStrB [("icon", PyVal.num 4)] = true) ∧
    _get_value (.dict [("icon", PyVal.num 4)]) 7 =
      .ok ((specFirstValid get_value_priority [("icon", PyVal.num 4)]).getD 7) ∧
    ((specFirstValid get_value_priority [("icon", PyVal.num 4)]).getD 7 : ℚ) = 4 :=
  ⟨by decide, (c1_amended.1 [("icon", PyVal.num 4)] 7 (by decide)).1, rfl⟩

/-- C5: `get_average_from_sources` is *not* total: on the reading
`{sg: "abc"}` the call `np.isnan(val)` raises `TypeError` before the
`float(val)` try/except is reached, so the function raises instead of
returning the default.  On a non-dict input and on the empty reading it does
return the default, as the claim says. -/
theorem c5_raises_on_string_value :
    get_average_from_sources (.dict [("sg", PyVal.str "abc")]) 0 = .error () ∧
    get_average_from_sources .nonDict 9 = .ok 9 ∧
    get_average_from_sources (.dict []) 9 = .ok 9 :=
  ⟨rfl, rfl, rfl⟩

lemma fetchRotAux_spec {α : Type} (oracle : ℕ → ApiResp α) (N : ℕ) (hN : 0 < N) :
    ∀ (fuel tried cursor : ℕ), cursor < N →
      (fetchRotAux oracle N fuel tried cursor).trace =
        (List.range (fetchRotAux oracle N fuel tried cursor).trace.length).map
          (fun i => (cursor + i) % N) ∧
      (fetchRotAux oracle N fuel tried cursor).cursor =
        (cursor + (fetchRotAux oracle N fuel tried cursor).trace.length) % N ∧
      (fetchRotAux oracle N fuel tried cursor).trace.length ≤ fuel := by
  intro fuel
  induction fuel with
  | zero =>
    intro tried cursor hc
    simp [fetchRotAux, Nat.mod_eq_of_lt hc]
  | succ fuel ih =>
    intro tried cursor hc
    have hrot : rotate_to_next_key N cursor < N := Nat.mod_lt _ hN
    obtain ⟨ih1, ih2, ih3⟩ := ih (tried + 1) (rotate_to_next_key N cursor) hrot
    set r := fetchRotAux oracle N fuel (tried + 1) (rotate_to_next_key N cursor) with hr
    have hshift : ∀ k : ℕ,
        (List.range k).map (fun i => (rotate_to_next_key N cursor + i) % N) =
        (List.range k).map (fun i => (cursor + (i + 1)) % N) := by
      intro k
      refine List.map_congr_left (fun i _ => ?_)
      simp only [rotate_to_next_key, Nat.mod_add_mod]
      congr 1
      omega
    have htrace : r.trace = (List.range r.trace.length).map (fun i => (cursor + (i + 1)) % N) :=
      ih1.trans (hshift r.trace.length)
    have hcons : ∀ k : ℕ, r.trace = (List.range k).map (fun i => (cursor + (i + 1)) % N) →
        cursor :: r.trace = (List.range (k + 1)).map (fun i => (cursor + i) % N) := by
      intro k hkk
      rw [hkk, List.range_succ_eq_map, List.map_cons, List.map_map]
      refine congrArg₂ List.cons ?_ rfl
      rw [Nat.add_zero, Nat.mod_eq_of_lt hc]
    have hcur : r.cursor = (cursor + (r.trace.length + 1)) % N := by
      rw [ih2]
      simp only [rotate_to_next_key, Nat.mod_add_mod]
      congr 1
      omega
    have hsucc : ∀ hs : List α,
        ((⟨some hs, rotate_to_next_key N cursor, [cursor]⟩ : RotRun α).trace =
          (List.range ([cursor] : List ℕ).length).map (fun i => (cursor + i) % N)) ∧
        (rotate_to_next_key N cursor = (cursor + ([cursor] : List ℕ).length) % N) ∧
        (([cursor] : List ℕ).length ≤ fuel + 1) := by
      intro hs
      refine ⟨?_, ?_, by simp⟩
      · simp [List.range_succ, Nat.mod_eq_of_lt hc]
      · simp [rotate_to_next_key]
    rcases horacle : oracle tried with ⟨code, hs⟩ | _ | msg
    · by_cases h200 : code = 200 ∧ hs.isEmpty = false
      · simp only [fetchRotAux, horacle, if_pos h200]
        exact hsucc hs
      · simp only [fetchRotAux, horacle, if_neg h200, ← hr]
        exact ⟨by simpa using hcons r.trace.length htrace, by simpa using hcur, by simpa using Nat.succ_le_succ ih3⟩
    · simp only [fetchRotAux, horacle, ← hr]
      exact ⟨by simpa using hcons r.trace.length htrace, by simpa using hcur, by simpa using Nat.succ_le_succ ih3⟩
    · simp only [fetchRotAux, horacle, ← hr]
      exact ⟨by simpa using hcons r.trace.length htrace, by simpa using hcur, by simpa using Nat.succ_le_succ ih3⟩

/-- C3: in `fetch_weather_data_with_rotation` the credential cursor advances
by exactly one position modulo N on every attempt (success, empty payload,
quota error, timeout or any other failure alike): attempt `i` (0-based) uses
credential `(start + i) % N`, the cursor after the call equals
`(start + k) % N` where `k` is the number of attempts made, and at most N
attempts are made.  In particular, after `k ≤ N` failed attempts the cursor
is `(start + k) % N`, and after a success the next call starts from the
credential following the one that succeeded. -/
theorem c3_cursor_rotation {α : Type} (N start : ℕ) (oracle : ℕ → ApiResp α)
    (hN : 0 < N) (hstart : start < N) :
    (fetch_weather_data_with_rotation N start oracle).trace =
      (List.range (fetch_weather_data_with_rotation N start oracle).trace.length).map
        (fun i => (start + i) % N) ∧
    (fetch_weather_data_with_rotation N start oracle).cursor =
      (start + (fetch_weather_data_with_rotation N start oracle).trace.length) % N ∧
    (fetch_weather_data_with_rotation N start oracle).trace.length ≤ N :=
  fetchRotAux_spec oracle N hN N 0 start hstart

/-- C3 witness: a 3-key pool starting at cursor 1 with every key answering
429 makes attempts with keys `[1, 2, 0]` and leaves the cursor back at
`(1 + 3) % 3 = 1`. -/
theorem c3_cursor_rotation_witness :
    (0 < 3 ∧ (1 : ℕ) < 3) ∧
    ((fetch_weather_data_with_rotation 3 1
        (fun _ => (ApiResp.status 429 ([] : List Unit)))).trace =
      (List.range (fetch_weather_data_with_rotation 3 1
        (fun _ => (ApiResp.status 429 ([] : List Unit)))).trace.length).map
        (fun i => (1 + i) % 3)) ∧
    (fetch_weather_data_with_rotation 3 1
        (fun _ => (ApiResp.status 429 ([] : List Unit)))).trace = [1, 2, 0] :=
  ⟨⟨by decide, by decide⟩,
   (c3_cursor_rotation 3 1 (fun _ => (ApiResp.status 429 ([] : List Unit)))
      (by decide) (by decide)).1,
   by decide⟩

/-- C2 counterexample: on HTTP 422 the live acquisition client
(`utils/api_client.py::fetch_weather_data_with_rotation`) does *not* abort:
with a 2-credential pool answering 422 on every request, it rotates to the
second credential and makes a second attempt (trace `[0, 1]`), ending with
no result and the cursor rotated all the way around. -/
theorem c2_counterexample :
    fetch_weather_data_with_rotation 2 0
        (fun _ => (ApiResp.status 422 ([] : List Unit))) =
      ⟨none, 0, [0, 1]⟩ := by
  decide

lemma collectAux_http_stop (numKeys : ℕ) (oracle : ℕ → ℤ → CResp) (c : ℕ)
    (hc : c ≠ 429) (idx : ℕ) (rest : List ℕ) (st : CollectState)
    (hkey : idx / 10 < numKeys) (hhttp : ∀ a, oracle a st.endDate = .http c) :
    collectAux numKeys oracle (idx :: rest) st =
      .ok { st with ctr := st.ctr + 3, sleeps := st.sleeps ++ [2, 4, 8] } := by
  have hretry : retryInner (fun a => oracle a st.endDate) 3 st.ctr 0 none st.sleeps =
      (.noSuccess (some c), st.ctr + 3, st.sleeps ++ [2, 4, 8]) := by
    simp [retryInner, hhttp]
  rw [collectAux.eq_def]
  simp only [if_neg (Nat.not_le.mpr hkey), hretry]
  simp [hc]

lemma collectAux_all429 (numKeys : ℕ) (oracle : ℕ → ℤ → CResp)
    (h429 : ∀ a e, oracle a e = .http 429) :
    ∀ (idxs : List ℕ) (st : CollectState), (∀ i ∈ idxs, i / 10 < numKeys) →
      collectAux numKeys oracle idxs st =
        .ok ⟨st.hours, st.made, st.endDate, st.ctr + 3 * idxs.length,
             st.sleeps ++ (List.replicate idxs.length ([2, 4, 8] : List ℕ)).flatten⟩ := by
  intro idxs
  induction idxs with
  | nil =>
    intro st _
    simp [collectAux]
  | cons idx rest ih =>
    intro st hkeys
    have hkey : idx / 10 < numKeys := hkeys idx (List.mem_cons_self ..)
    have hretry : retryInner (fun a => oracle a st.endDate) 3 st.ctr 0 none st.sleeps =
        (.noSuccess (some 429), st.ctr + 3, st.sleeps ++ [2, 4, 8]) := by
      simp [retryInner, fun a => h429 a st.endDate]
    rw [collectAux.eq_def]
    simp only [if_neg (Nat.not_le.mpr hkey), hretry]
    show collectAux numKeys oracle rest
        { st with ctr := st.ctr + 3, sleeps := st.sleeps ++ [2, 4, 8] } = _
    rw [ih _ (fun i hi => hkeys i (List.mem_cons_of_mem _ hi))]
    refine congrArg Except.ok ?_
    refine CollectState.mk.injEq .. |>.mpr ⟨rfl, rfl, rfl, ?_, ?_⟩
    · simp only [List.length_cons]
      omega
    · simp only [List.length_cons, List.replicate_succ, List.flatten_cons, List.append_assoc]

lemma collectAux_never_errors (numKeys : ℕ) (oracle : ℕ → ℤ → CResp) :
    ∀ (idxs : List ℕ) (st : CollectState),
      ∃ st2, collectAux numKeys oracle idxs st = .ok st2 := by
  intro idxs
  induction idxs with
  | nil => exact fun st => ⟨st, rfl⟩
  | cons idx rest ih =>
    intro st
    rw [collectAux.eq_def]
    by_cases hk : numKeys ≤ idx / 10
    · exact ⟨st, by simp [hk]⟩
    · simp only [if_neg hk]
      rcases hr : retryInner (fun a => oracle a st.endDate) 3 st.ctr 0 none st.sleeps
        with ⟨out, ctr2, sl2⟩
      cases out with
      | success rows =>
        exact ih { hours := rows ++ st.hours, made := st.made + 1
                 , endDate := st.endDate - 240, ctr := ctr2, sleeps := sl2 }
      | noSuccess ls =>
        show ∃ st2, (if ls = some 429 then
            collectAux numKeys oracle rest { st with ctr := ctr2, sleeps := sl2 }
          else .ok { st with ctr := ctr2, sleeps := sl2 }) = Except.ok st2
        by_cases h9 : ls = some 429
        · rw [if_pos h9]
          exact ih { st with ctr := ctr2, sleeps := sl2 }
        · rw [if_neg h9]
          exact ⟨_, rfl⟩

lemma collectAux_connErr_stop (numKeys : ℕ) (oracle : ℕ → ℤ → CResp) (idx : ℕ)
    (rest : List ℕ) (st : CollectState) (hkey : idx / 10 < numKeys)
    (hconn : ∀ a, oracle a st.endDate = .connErr) :
    collectAux numKeys oracle (idx :: rest) st =
      .ok { st with ctr := st.ctr + 3, sleeps := st.sleeps ++ [2, 4, 8] } := by
  have hretry : retryInner (fun a => oracle a st.endDate) 3 st.ctr 0 none st.sleeps =
      (.noSuccess none, st.ctr + 3, st.sleeps ++ [2, 4, 8]) := by
    simp [retryInner, hconn]
  rw [collectAux.eq_def]
  simp only [if_neg (Nat.not_le.mpr hkey), hretry]
  simp

/-- C2 (amended): HTTP 422 is not treated as fatal anywhere.  The live
acquisition client (`utils/api_client.py`) treats 422 like any other non-200
status: it advances the cursor and tries the next credential.  The backfill
collector (`collect_historical_data.py`) *textually* contains a
`sys.exit(1)` for 422, but its guard `if response and response.status_code
== 422` is always false for an error response (`requests.Response.__bool__`
is `status_code < 400`), so that exit is dead code: a 422 is retried up to 3
attempts of the same request with exponential backoff (sleeps 2, 4, 8
seconds), after which the spot's collection stops normally with the data
gathered so far — and, for every server behavior whatsoever, the collector
returns normally and never terminates the process. -/
theorem c2_amended :
    (∀ (numKeys startReqNum : ℕ) (oracle : ℕ → ℤ → CResp) (e0 : ℤ),
      ∃ st, fetch_data_for_spot numKeys oracle startReqNum e0 = .ok st) ∧
    (∀ (e0 : ℤ) (oracle : ℕ → ℤ → CResp), (∀ a, oracle a e0 = .http 422) →
      fetch_data_for_spot 2 oracle 1 e0 = .ok ⟨[], 0, e0, 3, [2, 4, 8]⟩) ∧
    fetch_weather_data_with_rotation 2 0
        (fun _ => (ApiResp.status 422 ([] : List Unit))) =
      ⟨none, 0, [0, 1]⟩ := by
  refine ⟨?_, ?_, by decide⟩
  · intro numKeys s oracle e0
    exact collectAux_never_errors numKeys oracle _ _
  · intro e0 oracle h422
    simp only [fetch_data_for_spot, show (2 : ℕ) * 10 = 19 + 1 from rfl, Nat.sub_self,
      List.drop_zero, List.range_succ_eq_map]
    exact collectAux_http_stop 2 oracle 422 (by decide) 0 _ _ (by decide) h422

/-- C2 witness: the amended statement applied to a 2-key pool whose server
answers 422 to every request: 3 attempts, sleeps 2, 4, 8, then a normal
return with nothing collected. -/
theorem c2_amended_witness :
    (∀ a, ((fun _ _ => CResp.http 422) : ℕ → ℤ → CResp) a 0 = .http 422) ∧
    fetch_data_for_spot 2 (fun _ _ => CResp.http 422) 1 0 =
      .ok ⟨[], 0, 0, 3, [2, 4, 8]⟩ :=
  ⟨fun _ => rfl, c2_amended.2.1 0 (fun _ _ => CResp.http 422) (fun _ => rfl)⟩

/-- C4 counterexample: on a timeout the live acquisition client does *not*
retry the same request: with a 2-credential pool timing out on every request
it makes exactly one attempt per credential — the first credential is used
once, then the cursor advances (trace `[0, 1]`), with no retry and no
backoff. -/
theorem c4_counterexample :
    fetch_weather_data_with_rotation 2 0 (fun _ => (ApiResp.timeout : ApiResp Unit)) =
      ⟨none, 0, [0, 1]⟩ ∧
    (fetch_weather_data_with_rotation 2 0
        (fun _ => (ApiResp.timeout : ApiResp Unit))).trace.count 0 = 1 := by
  constructor <;> decide

/-- C4 (amended): the two acquisition paths differ, and neither matches the
claim.  The live client (`utils/api_client.py`) advances the cursor
immediately on a timeout or any other error, with no same-request retry and
no backoff.  The backfill collector (`collect_historical_data.py`) retries
every failing request — a connection error or *any* HTTP error status, 429
and 422 included, since their special-case branches sit behind the
always-false `if response and ...` guard — up to 3 attempts of the same
request with exponential backoff (sleeps of 2, 4, 8 seconds, i.e.
`2 ** retries` after the increment); after the third failure it moves on to
the next request index only when the last completed response was a 429
(constant 429s burn the whole 2-key, 20-request budget at 3 attempts and 3
sleeps each), and for any other failing status or a connection failure it
stops the spot's collection without advancing to the next credential. -/
theorem c4_amended :
    (∀ (e0 : ℤ) (oracle : ℕ → ℤ → CResp) (c : ℕ), c ≠ 429 →
      (∀ a, oracle a e0 = .http c) →
      fetch_data_for_spot 2 oracle 1 e0 = .ok ⟨[], 0, e0, 3, [2, 4, 8]⟩) ∧
    (∀ (e0 : ℤ) (oracle : ℕ → ℤ → CResp), (∀ a, oracle a e0 = .connErr) →
      fetch_data_for_spot 2 oracle 1 e0 = .ok ⟨[], 0, e0, 3, [2, 4, 8]⟩) ∧
    (∀ (e0 : ℤ) (oracle : ℕ → ℤ → CResp), (∀ a e, oracle a e = .http 429) →
      fetch_data_for_spot 2 oracle 1 e0 =
        .ok ⟨[], 0, e0, 60, (List.replicate 20 ([2, 4, 8] : List ℕ)).flatten⟩) ∧
    fetch_weather_data_with_rotation 2 0 (fun _ => (ApiResp.timeout : ApiResp Unit)) =
      ⟨none, 0, [0, 1]⟩ := by
  refine ⟨?_, ?_, ?_, by decide⟩
  · intro e0 oracle c hc hhttp
    simp only [fetch_data_for_spot, show (2 : ℕ) * 10 = 19 + 1 from rfl, Nat.sub_self,
      List.drop_zero, List.range_succ_eq_map]
    exact collectAux_http_stop 2 oracle c hc 0 _ _ (by decide) hhttp
  · intro e0 oracle hconn
    simp only [fetch_data_for_spot, show (2 : ℕ) * 10 = 19 + 1 from rfl, Nat.sub_self,
      List.drop_zero, List.range_succ_eq_map]
    exact collectAux_connErr_stop 2 oracle 0 _ _ (by decide) hconn
  · intro e0 oracle h429
    simp only [fetch_data_for_spot, show (2 : ℕ) * 10 = 20 from rfl, Nat.sub_self,
      List.drop_zero]
    rw [collectAux_all429 2 oracle h429 (List.range 20) _ (by decide)]
    simp

/-- C4 witness: the amended statement applied to servers that fail every
attempt with a 500, with a connection error, and with a 429: the first two
stop after 3 backed-off attempts of the first request, the 429 run performs
3 backed-off attempts for each of the 20 budgeted requests. -/
theorem c4_amended_witness :
    ((500 : ℕ) ≠ 429 ∧ (∀ a, ((fun _ _ => CResp.http 500) : ℕ → ℤ → CResp) a 0 = .http 500) ∧
      (∀ a, ((fun _ _ => CResp.connErr) : ℕ → ℤ → CResp) a 0 = .connErr) ∧
      (∀ a e, ((fun _ _ => CResp.http 429) : ℕ → ℤ → CResp) a e = .http 429)) ∧
    fetch_data_for_spot 2 (fun _ _ => CResp.http 500) 1 0 = .ok ⟨[], 0, 0, 3, [2, 4, 8]⟩ ∧
    fetch_data_for_spot 2 (fun _ _ => CResp.connErr) 1 0 = .ok ⟨[], 0, 0, 3, [2, 4, 8]⟩ ∧
    fetch_data_for_spot 2 (fun _ _ => CResp.http 429) 1 0 =
      .ok ⟨[], 0, 0, 60, (List.replicate 20 ([2, 4, 8] : List ℕ)).flatten⟩ :=
  ⟨⟨by decide, fun _ => rfl, fun _ => rfl, fun _ _ => rfl⟩,
   c4_amended.1 0 (fun _ _ => CResp.http 500) 500 (by decide) (fun _ => rfl),
   c4_amended.2.1 0 (fun _ _ => CResp.connErr) (fun _ => rfl),
   c4_amended.2.2.1 0 (fun _ _ => CResp.http 429) (fun _ _ => rfl)⟩

lemma windowCat_succ (e : ℤ) (k : ℕ) :
    windowCat e (k + 1) =
      windowCat (e - 240) k ++ (List.range 240).map (fun (i : ℕ) => e - 240 + (i : ℤ)) := by
  unfold windowCat
  rw [show 240 * (k + 1) = 240 * k + 240 from by ring, List.range_add,
    List.map_append, List.map_map]
  refine congrArg₂ (· ++ ·) ?_ ?_
  · refine List.map_congr_left (fun i _ => ?_)
    push_cast
    ring
  · refine List.map_congr_left (fun i _ => ?_)
    simp only [Function.comp_apply]
    push_cast
    ring

lemma windowCat_sorted (e : ℤ) (k : ℕ) : (windowCat e k).Pairwise (· < ·) := by
  unfold windowCat
  exact List.Pairwise.map _ (fun a b hab => by omega) (List.pairwise_lt_range _)

lemma collectAux_allSuccess (numKeys : ℕ) :
    ∀ (idxs : List ℕ) (st : CollectState), (∀ i ∈ idxs, i / 10 < numKeys) →
      collectAux numKeys allSuccessOracle idxs st =
        .ok ⟨windowCat st.endDate idxs.length ++ st.hours, st.made + idxs.length,
             st.endDate - 240 * idxs.length, st.ctr + idxs.length, st.sleeps⟩ := by
  intro idxs
  induction idxs with
  | nil =>
    intro st _
    simp [collectAux, windowCat]
  | cons idx rest ih =>
    intro st hkeys
    have hkey : idx / 10 < numKeys := hkeys idx (List.mem_cons_self ..)
    have hretry : retryInner (fun a => allSuccessOracle a st.endDate) 3 st.ctr 0 none st.sleeps =
        (.success ((List.range 240).map (fun (i : ℕ) => st.endDate - 240 + (i : ℤ))),
          st.ctr + 1, st.sleeps) := by
      simp only [retryInner, allSuccessOracle]
      rw [if_neg (by simp [List.isEmpty_iff, List.range_eq_nil])]
    rw [collectAux.eq_def]
    simp only [if_neg (Nat.not_le.mpr hkey), hretry]
    rw [ih _ (fun i hi => hkeys i (List.mem_cons_of_mem _ hi))]
    refine congrArg Except.ok ?_
    refine CollectState.mk.injEq .. |>.mpr ⟨?_, by simp [List.length_cons]; omega, ?_, ?_, rfl⟩
    · simp only [List.length_cons, windowCat_succ, List.append_assoc]
    · simp only [List.length_cons]
      push_cast
      ring
    · simp only [List.length_cons]
      omega

/-- C9: with a 2-credential pool (sub-budget 10 requests per credential) and
every request succeeding with a 10-day window of 240 hourly rows,
`fetch_data_for_spot` performs exactly 20 successful requests and accumulates
exactly 20 × 240 = 4800 hourly rows, and — because each success *prepends*
the strictly older window — the accumulated series is strictly
time-ascending. -/
theorem c9_backfill_budget (e0 : ℤ) :
    ∃ st, fetch_data_for_spot 2 allSuccessOracle 1 e0 = .ok st ∧
      st.made = 20 ∧ st.hours.length = 4800 ∧ st.hours.Pairwise (· < ·) := by
  have hall : ∀ i ∈ List.range 20, i / 10 < 2 := by decide
  have h := collectAux_allSuccess 2 (List.range 20) ⟨[], 0, e0, 0, []⟩ hall
  have hfetch : fetch_data_for_spot 2 allSuccessOracle 1 e0 =
      .ok ⟨windowCat e0 20 ++ [], 0 + 20, e0 - 240 * 20, 0 + 20, []⟩ := by
    simp only [fetch_data_for_spot, show (2 : ℕ) * 10 = 20 from rfl, Nat.sub_self,
      List.drop_zero]
    simpa using h
  refine ⟨_, hfetch, rfl, ?_, ?_⟩
  · simp [windowCat]
  · simpa using windowCat_sorted e0 20

/-- C9 witness: the statement applied at the concrete starting hour 0. -/
theorem c9_backfill_budget_witness :
    ∃ st, fetch_data_for_spot 2 allSuccessOracle 1 0 = .ok st ∧
      st.made = 20 ∧ st.hours.length = 4800 ∧ st.hours.Pairwise (· < ·) :=
  c9_backfill_budget 0

lemma calc_engineered_baseFrame (cosd : ℚ → ℚ) (b : BaseFeatures) :
    calculate_engineered_features cosd (baseFrame b) =
      some (baseFrame b ++ engineeredCols cosd b) := rfl

/-- C6: for every valid 10-field base-feature input,
`calculate_engineered_features` yields the 15-column frame consisting of the
10 base columns (in their fixed order) followed by exactly
`swellEnergy, offshoreWind, totalSwellHeight, windSwellInteraction,
periodRatio` in that order, with
`swellEnergy = swellHeight² × swellPeriod`. -/
theorem c6_feature_vector (cosd : ℚ → ℚ) (b : BaseFeatures) :
    calculate_engineered_features cosd (baseFrame b) =
      some (baseFrame b ++ engineeredCols cosd b) ∧
    (baseFrame b ++ engineeredCols cosd b).length = 15 ∧
    (baseFrame b ++ engineeredCols cosd b).map Prod.fst =
      ["swellHeight", "swellPeriod", "swellDirection", "windSpeed", "windDirection",
       "seaLevel", "gust", "secondarySwellHeight", "secondarySwellPeriod",
       "secondarySwellDirection", "swellEnergy", "offshoreWind", "totalSwellHeight",
       "windSwellInteraction", "periodRatio"] ∧
    Frame.getCol (baseFrame b ++ engineeredCols cosd b) "swellEnergy" =
      some (b.swellHeight ^ 2 * b.swellPeriod) :=
  ⟨calc_engineered_baseFrame cosd b, rfl, rfl, rfl⟩

/-- C6 witness: for `swellHeight = 2`, `swellPeriod = 10` the engineered
`swellEnergy` value is `2² × 10 = 40`. -/
theorem c6_feature_vector_witness :
    Frame.getCol
        (baseFrame ⟨2, 10, 175, 10, 250, 1, 12, 1, 9, 170⟩ ++
          engineeredCols id ⟨2, 10, 175, 10, 250, 1, 12, 1, 9, 170⟩)
        "swellEnergy" = some 40 := by
  have h := (c6_feature_vector id ⟨2, 10, 175, 10, 250, 1, 12, 1, 9, 170⟩).2.2.2
  rw [h]
  norm_num

/-- C10: `calculate_engineered_features` does not mutate its input (it
operates on a copy, and the embedding is a pure function of the input frame):
the first 10 columns of the output are exactly the input frame with its
values unchanged, and the 5 engineered columns are only appended after
them. -/
theorem c10_input_preserved (cosd : ℚ → ℚ) (b : BaseFeatures) :
    (calculate_engineered_features cosd (baseFrame b)).map (fun out => out.take 10) =
      some (baseFrame b) ∧
    (calculate_engineered_features cosd (baseFrame b)).map
        (fun out => (out.drop 10).map Prod.fst) =
      some ["swellEnergy", "offshoreWind", "totalSwellHeight", "windSwellInteraction",
            "periodRatio"] := by
  rw [calc_engineered_baseFrame]
  exact ⟨rfl, rfl⟩

/-- C10 witness: the statement applied to a concrete input row: the frame's
first 10 output columns are the input columns with their input values. -/
theorem c10_input_preserved_witness :
    (calculate_engineered_features id (baseFrame ⟨1, 2, 3, 4, 5, 6, 7, 8, 9, 10⟩)).map
        (fun out => out.take 10) =
      some (baseFrame ⟨1, 2, 3, 4, 5, 6, 7, 8, 9, 10⟩) :=
  (c10_input_preserved id ⟨1, 2, 3, 4, 5, 6, 7, 8, 9, 10⟩).1

lemma aggregate_to_daily_fst_length (x : List Row) :
    (aggregate_to_daily x).1.length = 7 := by
  simp [aggregate_to_daily]

lemma aggregate_to_daily_snd_length (x : List Row) :
    (aggregate_to_daily x).2.length = 168 := by
  simp [aggregate_to_daily]

/-- C7: whenever the configured Predictor is absent or raises on every call,
the cascade of `predict_7day_forecast` still produces a bundle whose hourly
sequence has exactly 168 rows and whose method tag is `Trend` — for every
input history, location and realisation of the random/transcendental
parameters.  The embedded cascade is a total function, so it never raises to
its caller: a forecast bundle is always produced. -/
theorem c7_cascade_trend (lat lng : ℚ) (fetched : Option (List Row))
    (model : Option (List Row → Option (List Row)))
    (sin2pi : ℚ → ℚ) (rnd : ℕ → ℕ → ℚ) (expd : ℕ → ℚ) (nrm : ℕ → Fin 6 → ℚ)
    (hmodel : model = none ∨ ∃ f, model = some f ∧ ∀ x, f x = none) :
    (predict_7day_forecast lat lng fetched model sin2pi rnd expd nrm).forecastMethod =
      "Trend" ∧
    (predict_7day_forecast lat lng fetched model sin2pi rnd expd nrm).hourly.length = 168 ∧
    (predict_7day_forecast lat lng fetched model sin2pi rnd expd nrm).daily.length = 7 := by
  have hlstm : ∀ recent, predict_with_lstm model recent = none := by
    rcases hmodel with h | ⟨f, hf, hfa⟩
    · intro recent
      simp [predict_with_lstm, h]
    · intro recent
      simp [predict_with_lstm, hf, hfa]
  rcases fetched with _ | d
  · simp [predict_7day_forecast, hlstm, aggregate_to_daily_fst_length,
      aggregate_to_daily_snd_length]
  · by_cases hlen : d.length < 168 <;>
      simp [predict_7day_forecast, hlstm, hlen, aggregate_to_daily_fst_length,
        aggregate_to_daily_snd_length]

/-- C7 witness: the statement applied at the Weligama coordinates with no
fetched data, no model and trivial random/transcendental realisations. -/
theorem c7_cascade_trend_witness :
    ((none : Option (List Row → Option (List Row))) = none ∨
      ∃ f, (none : Option (List Row → Option (List Row))) = some f ∧ ∀ x, f x = none) ∧
    (predict_7day_forecast 5.972 80.426 none none (fun _ => 0) (fun _ _ => 0)
        (fun _ => 0) (fun _ _ => 0)).forecastMethod = "Trend" ∧
    (predict_7day_forecast 5.972 80.426 none none (fun _ => 0) (fun _ _ => 0)
        (fun _ => 0) (fun _ _ => 0)).hourly.length = 168 :=
  ⟨Or.inl rfl,
   (c7_cascade_trend 5.972 80.426 none none (fun _ => 0) (fun _ _ => 0)
      (fun _ => 0) (fun _ _ => 0) (Or.inl rfl)).1,
   (c7_cascade_trend 5.972 80.426 none none (fun _ => 0) (fun _ _ => 0)
      (fun _ => 0) (fun _ _ => 0) (Or.inl rfl)).2.1⟩

lemma meanQ_replicate (n : ℕ) (x : ℚ) (hn : n ≠ 0) :
    meanQ (List.replicate n x) = x := by
  rw [meanQ, List.sum_replicate, List.length_replicate, nsmul_eq_mul]
  exact mul_div_cancel_left₀ x (by exact_mod_cast hn)

lemma dailyAvgDU_replicate (r : Row) : dailyAvgDU (List.replicate 24 r) = roundRowDU r := by
  have h : ∀ x : ℚ, meanQ (List.replicate 24 x) = x :=
    fun x => meanQ_replicate 24 x (by norm_num)
  simp only [dailyAvgDU, roundRowDU, List.map_replicate, h]

lemma dailyAvgFS_replicate (r : Row) : dailyAvgFS (List.replicate 24 r) = roundRowFS r := by
  have h : ∀ x : ℚ, meanQ (List.replicate 24 x) = x :=
    fun x => meanQ_replicate 24 x (by norm_num)
  simp only [dailyAvgFS, roundRowFS, List.map_replicate, h]

lemma replicate_block (r : Row) (day : ℕ) (hday : day < 7) :
    ((List.replicate 168 r).drop (day * 24)).take 24 = List.replicate 24 r := by
  rw [List.drop_replicate, List.take_replicate]
  congr 1
  omega

lemma aggregate_DU_replicate (r : Row) :
    aggregate_hourly_to_daily (List.replicate 168 r) 24 =
      List.replicate 7 (roundRowDU r) := by
  unfold aggregate_hourly_to_daily
  have h1 : ∀ day ∈ List.range 7,
      (if (((List.replicate 168 r).drop (day * 24)).take 24).isEmpty then fallbackDaily
       else dailyAvgDU (((List.replicate 168 r).drop (day * 24)).take 24)) = roundRowDU r := by
    intro day hday
    rw [replicate_block r day (List.mem_range.mp hday)]
    rw [if_neg (by simp)]
    exact dailyAvgDU_replicate r
  rw [List.map_congr_left h1, List.map_const', List.length_range]

lemma aggregate_FS_replicate (r : Row) :
    (aggregate_to_daily (List.replicate 168 r)).1 = List.replicate 7 (roundRowFS r) := by
  show (List.range 7).map
      (fun day => dailyAvgFS (((List.replicate 168 r).drop (day * 24)).take 24)) = _
  have h1 : ∀ day ∈ List.range 7,
      dailyAvgFS (((List.replicate 168 r).drop (day * 24)).take 24) = roundRowFS r := by
    intro day hday
    rw [replicate_block r day (List.mem_range.mp hday)]
    exact dailyAvgFS_replicate r
  rw [List.map_congr_left h1, List.map_const', List.length_range]

lemma pyRound_intCast (n : ℤ) : pyRound (n : ℚ) = n := by
  simp [pyRound, Int.floor_intCast]

/-- C8 counterexample: aggregating 24 identical hourly values `v = 1.23`
does *not* yield a daily value equal to `v`: every channel of
`aggregate_hourly_to_daily` is rounded to 1 decimal, so the daily wave
height becomes `1.2 ≠ 1.23`. -/
theorem c8_counterexample :
    aggregate_hourly_to_daily
        (List.replicate 168 (⟨123 / 100, 10, 1, 12, 15, 180⟩ : Row)) 24 =
      List.replicate 7 (⟨6 / 5, 10, 1, 12, 15, 180⟩ : Row) ∧
    (6 / 5 : ℚ) ≠ 123 / 100 := by
  constructor
  · rw [aggregate_DU_replicate]
    refine congrArg (List.replicate 7) ?_
    norm_num [roundRowDU, roundTo, pyRound]
  · norm_num

/-- C8 (amended): daily aggregation partitions the 168-hour sequence into 7
contiguous 24-hour blocks and takes per-channel arithmetic means rounded to
the channel's fixed decimal precision; consequently aggregating 24 identical
hourly values `v` yields `round(v, precision)` — which equals `v` exactly
when `v` is already expressible at that precision (e.g. at one decimal for
`aggregate_hourly_to_daily`). -/
theorem c8_amended :
    (∀ r : Row, aggregate_hourly_to_daily (List.replicate 168 r) 24 =
      List.replicate 7 (roundRowDU r)) ∧
    (∀ r : Row, (aggregate_to_daily (List.replicate 168 r)).1 =
      List.replicate 7 (roundRowFS r)) ∧
    (∀ (nd : ℕ) (x : ℚ), (∃ n : ℤ, x * 10 ^ nd = (n : ℚ)) → roundTo nd x = x) := by
  refine ⟨aggregate_DU_replicate, aggregate_FS_replicate, ?_⟩
  intro nd x ⟨n, hn⟩
  rw [roundTo, hn, pyRound_intCast, ← hn]
  exact mul_div_cancel_right₀ x (by positivity)

/-- C8 witness: `v = 3.5` is expressible at one decimal, so `roundTo 1`
fixes it; combined with the amended statement, a constant block of `3.5`
aggregates back to `3.5`. -/
theorem c8_amended_witness :
    (∃ n : ℤ, (7 / 2 : ℚ) * 10 ^ 1 = (n : ℚ)) ∧ roundTo 1 (7 / 2 : ℚ) = 7 / 2 :=
  ⟨⟨35, by norm_num⟩, c8_amended.2.2 1 (7 / 2) ⟨35, by norm_num⟩⟩

end SurfCeylon
